import Mathlib

/-!
Shallow embedding of the `sql_server` repository (Python) in Lean 4, together
with proofs settling the frozen claims about its specification.

Source files embedded:
- `src/sql_server/query_optimizer.py` (`check_indexed_filters`, `get_db_query_slo`)
- `src/sql_server/sql_server.py` (`identify_query_type`,
  `is_query_eligible_for_realtime`, `execute_query`, `handle_real_time_query`,
  `handle_scheduled_query`, `enqueue_query_task`, `get_task_status`)
- `src/sql_server/redis_cache.py` (`cache_query`)
- `src/sql_server/entitlement_validator.py` (`validate_entitlements`)
- `src/sql_server/saas_auth.py` (`validate_saas_tokens`)

Modelling conventions:
- Python strings are Lean `String`; `s.lower()` is `pyLower`, mapping
  `Char.toLower` over the characters (extensionally `String.toLower`, but
  structurally recursive so concrete instances evaluate by `decide`; the
  needles that matter are ASCII, where Python and Lean lowering agree).
- Python's substring test `needle in hay` is `containsSub hay needle`
  (decidable infix test on the character lists).
- Python dicts used as string-keyed maps become association lists
  (`List (String × _)`) with `dictGet`; `.get(k, default)` is `Option.getD`.
- Python truthiness of an `Optional` string/list value is made explicit at
  each use site (`none` and the empty string/list are falsy).
- `hash(query)` (CPython's 64-bit seeded string hash) is an abstract
  parameter `h : PyHash`, i.e. an arbitrary function into the 2^64 machine
  values; nothing about it is assumed.
- `uuid.uuid4()` is an abstract fresh-identifier parameter `freshId`.
- Redis TTL time is an explicit `Nat` timestamp threaded through the cache.
- The external database driver (`db_session.execute`) is an abstract
  executor `exec : String → Except String (List Row)`.
-/

namespace SqlServer

/-- Decidable "needle occurs as a contiguous infix of hay" on char lists
(Python's `in` operator on strings). -/
def occursIn (needle : List Char) : List Char → Bool
  | [] => needle.isEmpty
  | c :: rest => needle.isPrefixOf (c :: rest) || occursIn needle rest

/-- Python `needle in hay`: substring containment. -/
def containsSub (hay needle : String) : Bool :=
  occursIn needle.data hay.data

/-- Python `s.lower()`: lower-case every character. -/
def pyLower (s : String) : String :=
  ⟨s.data.map Char.toLower⟩

/-- Python `needle in hay.lower()`: case-insensitive substring containment,
the pervasive idiom of this code base. -/
def containsLC (hay needle : String) : Bool :=
  containsSub (pyLower hay) needle

/-- Association-list rendering of a Python string-keyed dict lookup:
`d.get(k)` returning `None` when absent. -/
def dictGet (d : List (String × String)) (k : String) : Option String :=
  (d.find? (fun p => p.1 == k)).map (fun p => p.2)

/-! ## query_optimizer.py -/

/-- `check_indexed_filters` from `src/sql_server/query_optimizer.py`:
`True` iff the lowered query contains both `"where"` and `"id"`. -/
def check_indexed_filters (sql_query : String) : Bool :=
  containsLC sql_query "where" && containsLC sql_query "id"

/-- `get_db_query_slo` from `src/sql_server/query_optimizer.py`: simulated
SLO seconds — 10 for joins, 8 for aggregations, else 3. -/
def get_db_query_slo (sql_query : String) : Int :=
  if containsLC sql_query "join" then 10
  else if containsLC sql_query "group by" || containsLC sql_query "sum(" then 8
  else 3

/-! ## sql_server.py — pure query classification -/

/-- `identify_query_type` from `src/sql_server/sql_server.py`: first-match
classification of the lowered query text. -/
def identify_query_type (sql_query : String) : String :=
  if containsLC sql_query "join" then "join"
  else if containsLC sql_query "group by" || containsLC sql_query "sum(" then "aggregation"
  else if containsLC sql_query "insert" then "insert"
  else if containsLC sql_query "select" then "projection"
  else "unknown"

/-- `is_query_eligible_for_realtime` from `src/sql_server/sql_server.py`:
indexed filters present, type not join/aggregation/insert, SLO at most 5. -/
def is_query_eligible_for_realtime (sql_query : String) : Bool :=
  if !check_indexed_filters sql_query then false
  else if (["join", "aggregation", "insert"] : List String).contains
      (identify_query_type sql_query) then false
  else if get_db_query_slo sql_query > 5 then false
  else true

end SqlServer

namespace SqlServer

/-- C1 helper: the three admission predicates as the claim lists them. -/
def admissionPredicates (q : String) : Prop :=
  check_indexed_filters q = true ∧
  identify_query_type q ≠ "join" ∧
  identify_query_type q ≠ "aggregation" ∧
  identify_query_type q ≠ "insert" ∧
  get_db_query_slo q ≤ 5

instance (q : String) : Decidable (admissionPredicates q) := by
  unfold admissionPredicates; infer_instance

end SqlServer

/-- C1: `is_query_eligible_for_realtime q` is `true` iff all admission
predicates hold — indexed filters, query type not join/aggregation/insert,
and SLO at most 5; if any fails the result is `false`. -/
theorem C1_realtime_eligibility_iff (q : String) :
    SqlServer.is_query_eligible_for_realtime q = true ↔
      SqlServer.admissionPredicates q := by
  unfold SqlServer.is_query_eligible_for_realtime SqlServer.admissionPredicates
  cases hc : SqlServer.check_indexed_filters q
  · simp [hc]
  · simp only [hc, Bool.not_true, Bool.false_eq_true, if_false, true_and]
    by_cases hj : SqlServer.identify_query_type q = "join" <;>
      by_cases ha : SqlServer.identify_query_type q = "aggregation" <;>
        by_cases hi : SqlServer.identify_query_type q = "insert" <;>
          simp [hj, ha, hi, List.contains]

namespace SqlServer

/-- If the lowered query contains neither `"join"` nor an aggregation marker,
`get_db_query_slo` falls through to the default branch and returns 3. -/
theorem slo_default_of_no_join_no_agg (q : String)
    (h1 : containsLC q "join" = false)
    (h2 : (containsLC q "group by" || containsLC q "sum(") = false) :
    get_db_query_slo q = 3 := by
  unfold get_db_query_slo
  simp [h1, h2]

/-- A query whose identified type is neither `"join"` nor `"aggregation"`
contains neither the join nor the aggregation markers. -/
theorem markers_false_of_type_ne (q : String)
    (hj : identify_query_type q ≠ "join")
    (ha : identify_query_type q ≠ "aggregation") :
    containsLC q "join" = false ∧
      (containsLC q "group by" || containsLC q "sum(") = false := by
  unfold identify_query_type at hj ha
  by_cases h1 : containsLC q "join" = true
  · simp [h1] at hj
  · by_cases h2 : (containsLC q "group by" || containsLC q "sum(") = true
    · simp [h1, h2] at ha
    · exact ⟨by simpa using h1, by simpa using h2⟩

end SqlServer

/-- C10: whenever `identify_query_type` is not join/aggregation/insert,
`get_db_query_slo` is at most 5, and hence `is_query_eligible_for_realtime`
degenerates to `check_indexed_filters` alone — the cost check never rejects a
query that already passed the operation-kind check. -/
theorem C10_slo_subsumed_by_type (q : String)
    (hj : SqlServer.identify_query_type q ≠ "join")
    (ha : SqlServer.identify_query_type q ≠ "aggregation")
    (hi : SqlServer.identify_query_type q ≠ "insert") :
    SqlServer.get_db_query_slo q ≤ 5 ∧
      SqlServer.is_query_eligible_for_realtime q =
        SqlServer.check_indexed_filters q := by
  obtain ⟨h1, h2⟩ := SqlServer.markers_false_of_type_ne q hj ha
  have hslo := SqlServer.slo_default_of_no_join_no_agg q h1 h2
  refine ⟨by omega, ?_⟩
  unfold SqlServer.is_query_eligible_for_realtime
  cases hc : SqlServer.check_indexed_filters q
  · simp [hc]
  · simp [hc, hj, ha, hi, hslo, List.contains]

/-- C10 witness: a concrete projection query passing the operation-kind
check whose SLO is 3 and whose eligibility equals its indexed-filter check. -/
theorem C10_slo_subsumed_by_type_witness :
    SqlServer.get_db_query_slo "SELECT name FROM contacts WHERE id = 5" ≤ 5 ∧
      SqlServer.is_query_eligible_for_realtime
          "SELECT name FROM contacts WHERE id = 5" =
        SqlServer.check_indexed_filters "SELECT name FROM contacts WHERE id = 5" :=
  C10_slo_subsumed_by_type "SELECT name FROM contacts WHERE id = 5"
    (by decide) (by decide) (by decide)

/-- C7 counterexample: the query `"foo"` has no recognized construct —
`identify_query_type` is `"unknown"` and `check_indexed_filters` is `false` —
yet `get_db_query_slo` is 3, which does NOT exceed the 5-second real-time
threshold, contradicting the claimed conservatively high default cost. -/
theorem C7_counterexample :
    SqlServer.identify_query_type "foo" = "unknown" ∧
      SqlServer.check_indexed_filters "foo" = false ∧
      ¬ SqlServer.get_db_query_slo "foo" > 5 := by
  decide

/-- C7 (amended): the extractor is total; on a query with no recognized
construct (identified type `"unknown"`) it defaults to the fixed LOW cost of
3 seconds, which is within the default 5-second real-time threshold, not a
conservatively high value exceeding it. -/
theorem C7_unknown_defaults (q : String)
    (hu : SqlServer.identify_query_type q = "unknown") :
    SqlServer.get_db_query_slo q = 3 ∧ SqlServer.get_db_query_slo q ≤ 5 := by
  have h := SqlServer.markers_false_of_type_ne q
    (by simp [hu]) (by simp [hu])
  have hslo := SqlServer.slo_default_of_no_join_no_agg q h.1 h.2
  exact ⟨hslo, by omega⟩

/-- C7 witness: the unrecognized query `"foo"` gets the default SLO of 3. -/
theorem C7_unknown_defaults_witness :
    SqlServer.get_db_query_slo "foo" = 3 ∧ SqlServer.get_db_query_slo "foo" ≤ 5 :=
  C7_unknown_defaults "foo" (by decide)

namespace SqlServer

/-- CPython's `hash` on strings as the code observes it: an arbitrary
(seeded) function into the 2^64 values of a 64-bit machine integer. -/
def PyHash : Type := String → Fin (2 ^ 64)

/-- The cache-key construction of `cache_query` in
`src/sql_server/redis_cache.py`: `key = f"sql_cache:{hash(query)}"` —
the raw (un-normalized) query text is hashed and interpolated. -/
def cache_key (h : PyHash) (query : String) : String :=
  "sql_cache:" ++ toString (h query).val

end SqlServer

/-- C3: for EVERY possible 64-bit string hash — hence for CPython's, whatever
its seed — `cache_key` collides on some pair of distinct query texts: a
lossy hash of the query cannot be injective on the infinitely many distinct
texts, so the claimed no-collision property is unachievable by this code. -/
theorem C3_cache_key_not_injective (h : SqlServer.PyHash) :
    ∃ q1 q2 : String, q1 ≠ q2 ∧
      SqlServer.cache_key h q1 = SqlServer.cache_key h q2 := by
  obtain ⟨q1, q2, hne, heq⟩ := Finite.exists_ne_map_eq_of_infinite h
  exact ⟨q1, q2, hne, by unfold SqlServer.cache_key; rw [heq]⟩

namespace SqlServer

/-! ## Request data model and access gates -/

/-- A result row: a Python dict column→value (the `json.dumps`/`json.loads`
round-trip in the cache is faithful on these, so it is modelled as identity). -/
abbrev Row := List (String × String)

/-- `user_context` as the code reads it: only `user_context["roles"]`. -/
structure UserContext where
  roles : List String
deriving DecidableEq

/-- `enterprise_context` as the code reads it: only
`enterprise_context.get("Access_tokens", {})` (absent key = empty dict). -/
structure EnterpriseContext where
  access_tokens : List (String × String)
deriving DecidableEq

/-- `SQLQueryRequest` from `src/sql_server/sql_server.py`; `real_time` is
`execution_prefs.get("real_time", True)`, so `none` means the key is absent
and defaults to `true`. -/
structure SQLQueryRequest where
  sql_query : String
  user_context : UserContext
  enterprise_context : EnterpriseContext
  real_time : Option Bool
deriving DecidableEq

/-- `validate_entitlements` from `src/sql_server/entitlement_validator.py`:
deny exactly when the lowered query mentions `"highly_confidential"` and the
requester's roles do not include `"Admin"`. -/
def validate_entitlements (sql_query : String) (user_context : UserContext)
    (_enterprise_context : EnterpriseContext) : Bool :=
  if containsLC sql_query "highly_confidential" &&
      !(user_context.roles.contains "Admin") then false
  else true

/-- Python truthiness of `tokens.get(name)`: absent and the empty string are
falsy (an absent or empty token counts as inactive). -/
def tokenTruthy (t : Option String) : Bool :=
  match t with
  | some s => !s.isEmpty
  | none => false

/-- `validate_saas_tokens` from `src/sql_server/saas_auth.py`: both the
`"Salesforce"` and the `"Zendesk"` token must be present and truthy. -/
def validate_saas_tokens (ec : EnterpriseContext) : Bool :=
  if !tokenTruthy (dictGet ec.access_tokens "Salesforce") ||
      !tokenTruthy (dictGet ec.access_tokens "Zendesk") then false
  else true

/-! ## redis_cache.py -/

/-- Redis contents relevant to `cache_query`: key → (stored rows, absolute
expiry timestamp). Newest binding first; `redis.set` overwrites by shadowing. -/
abbrev CacheState := List (String × List Row × Nat)

/-- `redis.get key` ignoring expiry. -/
def cacheLookup (st : CacheState) (k : String) : Option (List Row × Nat) :=
  (st.find? (fun e => e.1 == k)).map (fun e => e.2)

/-- `cache_query(query)` (retrieval mode) from `src/sql_server/redis_cache.py`:
returns the stored rows while the entry is live, else `None`. The stored JSON
string is never empty, so the inner truthiness test only filters out `nil`. -/
def cache_query_get (h : PyHash) (st : CacheState) (now : Nat)
    (query : String) : Option (List Row) :=
  match cacheLookup st (cache_key h query) with
  | some (rows, expiry) => if now < expiry then some rows else none
  | none => none

/-- `cache_query(query, result)` (storing mode): `redis.set(key, ..., ex=60*5)`. -/
def cache_query_put (h : PyHash) (st : CacheState) (now : Nat)
    (query : String) (result : List Row) : CacheState :=
  (cache_key h query, result, now + 60 * 5) :: st

/-! ## Job ledger (simulated task queue) -/

/-- One entry of the global `task_queue` list (`task_data` in
`enqueue_query_task`). -/
structure Task where
  job_id : String
  sql_query : String
  user_context : UserContext
  enterprise_context : EnterpriseContext
  status : String
deriving DecidableEq

/-- `enqueue_query_task` from `src/sql_server/sql_server.py`: append a task
with the freshly generated identifier (`uuid.uuid4()`, the abstract
`freshId`) and status `"queued"`; return the identifier and the new queue. -/
def enqueue_query_task (freshId : String) (sql_query : String)
    (uc : UserContext) (ec : EnterpriseContext) (queue : List Task) :
    String × List Task :=
  (freshId, queue ++ [⟨freshId, sql_query, uc, ec, "queued"⟩])

/-- Result of `get_task_status`: the task dict, or the
`\x7b"error": "Job not found"\x7d` sentinel. -/
inductive TaskStatus where
  | found (t : Task)
  | notFound
deriving DecidableEq

/-- `get_task_status` from `src/sql_server/sql_server.py`: first task in the
queue with the given `job_id`, else the not-found sentinel. -/
def get_task_status (queue : List Task) (job_id : String) : TaskStatus :=
  match queue.find? (fun t => t.job_id == job_id) with
  | some t => .found t
  | none => .notFound

/-! ## Execution router -/

/-- Python truthiness of `cached_result` in `handle_real_time_query`:
`None` and the empty row list are falsy. -/
def listTruthy (o : Option (List Row)) : Bool :=
  match o with
  | some rows => !rows.isEmpty
  | none => false

/-- Observable side-effect counters of one request: calls into the redis
cache, calls into the database executor, and jobs enqueued. -/
structure Effects where
  cacheCalls : Nat
  execCalls : Nat
  enqueues : Nat
deriving DecidableEq

/-- `handle_real_time_query` from `src/sql_server/sql_server.py`: consult the
cache; on a (truthy) hit return the cached rows; otherwise run the executor,
cache a successful result for 5 minutes, and wrap a driver error in
`"Error executing query: ..."` (re-raised, caught by `execute_query`). -/
def handle_real_time_query (h : PyHash)
    (dbExec : String → Except String (List Row)) (st : CacheState)
    (now : Nat) (sql_query : String) :
    Except String (List Row) × CacheState × Effects :=
  let cached := cache_query_get h st now sql_query
  if listTruthy cached then (.ok (cached.getD []), st, ⟨1, 0, 0⟩)
  else
    match dbExec sql_query with
    | .ok rows => (.ok rows, cache_query_put h st now sql_query rows, ⟨2, 1, 0⟩)
    | .error e => (.error ("Error executing query: " ++ e), st, ⟨1, 1, 0⟩)

/-- The `data` field of a response: row list (real-time and failure paths) or
the job dict returned by `handle_scheduled_query`. -/
inductive RespData where
  | rows (rs : List Row)
  | job (job_id : String) (status : String)
deriving DecidableEq

/-- `SQLQueryResponse` from `src/sql_server/sql_server.py`. -/
structure SQLQueryResponse where
  status : String
  data : RespData
  error : Option String
deriving DecidableEq

/-- `handle_scheduled_query`: enqueue and return the job-tracking dict. -/
def handle_scheduled_query (freshId : String) (queue : List Task)
    (sql_query : String) (uc : UserContext) (ec : EnterpriseContext) :
    RespData × List Task :=
  let r := enqueue_query_task freshId sql_query uc ec queue
  (.job r.1 "queued", r.2)

/-- The shared mutable state `execute_query` touches: the redis cache and the
global `task_queue`. -/
structure ServerState where
  cache : CacheState
  task_queue : List Task
deriving DecidableEq

/-- `str(HTTPException(403, ...))` as rendered into the failure response. -/
def unauthorizedFieldsError : String :=
  "403: Unauthorized access to the requested fields"

/-- `str(HTTPException(401, ...))` for the SaaS-token gate. -/
def invalidTokensError : String :=
  "401: Invalid or expired SaaS application tokens"

/-- `str(HTTPException(400, ...))` for a realtime-ineligible forced query. -/
def realtimeIneligibleError : String :=
  "400: Query does not meet real-time execution requirements"

/-- `execute_query` from `src/sql_server/sql_server.py`: gate on entitlements
then SaaS tokens, branch on the `real_time` preference (default `True`),
check real-time eligibility, and dispatch to the real-time or scheduled
handler; every raised exception is converted to a `"failed"` response with
`data = []` and the exception text. -/
def execute_query (h : PyHash)
    (dbExec : String → Except String (List Row)) (freshId : String)
    (now : Nat) (st : ServerState) (req : SQLQueryRequest) :
    SQLQueryResponse × ServerState × Effects :=
  if !validate_entitlements req.sql_query req.user_context
      req.enterprise_context then
    (⟨"failed", .rows [], some unauthorizedFieldsError⟩, st, ⟨0, 0, 0⟩)
  else if !validate_saas_tokens req.enterprise_context then
    (⟨"failed", .rows [], some invalidTokensError⟩, st, ⟨0, 0, 0⟩)
  else if req.real_time.getD true then
    if !is_query_eligible_for_realtime req.sql_query then
      (⟨"failed", .rows [], some realtimeIneligibleError⟩, st, ⟨0, 0, 0⟩)
    else
      match handle_real_time_query h dbExec st.cache now req.sql_query with
      | (.ok rows, cache2, eff) =>
          (⟨"success", .rows rows, none⟩, ⟨cache2, st.task_queue⟩, eff)
      | (.error e, cache2, eff) =>
          (⟨"failed", .rows [], some e⟩, ⟨cache2, st.task_queue⟩, eff)
  else
    let r := handle_scheduled_query freshId st.task_queue req.sql_query
      req.user_context req.enterprise_context
    (⟨"success", r.1, none⟩, ⟨st.cache, r.2⟩, ⟨0, 0, 1⟩)

end SqlServer

namespace SqlServer

/-! ## Concrete fixtures for witnesses and counterexamples -/

/-- One admissible concrete value of the abstract CPython string hash. -/
def zeroHash : PyHash := fun _ => ⟨0, by norm_num⟩

/-- A token dict with active Salesforce and Zendesk credentials. -/
def goodTokens : List (String × String) :=
  [("Salesforce", "sf-token"), ("Zendesk", "zd-token")]

/-- A gate-passing request whose query contains `JOIN`, with
`execution_prefs = \x7b"real_time": True\x7d`. -/
def reqJoin : SQLQueryRequest :=
  ⟨"SELECT a FROM t JOIN u ON t.id = u.id WHERE id = 1", ⟨["Admin"]⟩,
    ⟨goodTokens⟩, some true⟩

/-- A request touching the restricted label from a non-Admin requester. -/
def reqConfidential : SQLQueryRequest :=
  ⟨"SELECT highly_confidential FROM t WHERE id = 1", ⟨["Analyst"]⟩,
    ⟨goodTokens⟩, none⟩

/-- A request from an enterprise lacking the Zendesk credential. -/
def reqNoZendesk : SQLQueryRequest :=
  ⟨"SELECT name FROM t WHERE id = 1", ⟨["Analyst"]⟩,
    ⟨[("Salesforce", "sf-token")]⟩, none⟩

/-- A gate-passing request with `real_time` explicitly `False`. -/
def reqScheduled : SQLQueryRequest :=
  ⟨"SELECT name FROM contacts WHERE id = 5", ⟨["Analyst"]⟩, ⟨goodTokens⟩,
    some false⟩

/-- An executor whose result set is empty. -/
def emptyExec : String → Except String (List Row) := fun _ => Except.ok []

/-- An executor returning one concrete row. -/
def aliceExec : String → Except String (List Row) :=
  fun _ => Except.ok [[("name", "alice")]]

/-- An eligible concrete query used for the cache-repeat scenario. -/
def qRepeat : String := "SELECT name FROM contacts WHERE id = 7"

/-- A sample ledger entry for the status-lookup witnesses. -/
def sampleTask : Task := ⟨"job-1", "SELECT 1", ⟨[]⟩, ⟨[]⟩, "queued"⟩

/-- A query mentioning `"join"` is never real-time eligible: its identified
type is `"join"`, which the eligibility check rejects. -/
theorem ineligible_of_join (q : String) (hj : containsLC q "join" = true) :
    is_query_eligible_for_realtime q = false := by
  have ht : identify_query_type q = "join" := by
    unfold identify_query_type; simp [hj]
  unfold is_query_eligible_for_realtime
  cases hc : check_indexed_filters q <;> simp [hc, ht, List.contains]

end SqlServer

/-- C5: a request whose query mentions the restricted label
`"highly_confidential"` from a requester without the `"Admin"` role is denied
by the entitlement gate: `execute_query` returns status `"failed"` with the
access-denial error, the server state is unchanged, and cache, executor and
job queue are each invoked zero times. -/
theorem C5_restricted_label_denied (h : SqlServer.PyHash)
    (dbExec : String → Except String (List SqlServer.Row)) (freshId : String)
    (now : Nat) (st : SqlServer.ServerState) (req : SqlServer.SQLQueryRequest)
    (hq : SqlServer.containsLC req.sql_query "highly_confidential" = true)
    (hr : req.user_context.roles.contains "Admin" = false) :
    SqlServer.execute_query h dbExec freshId now st req =
      (⟨"failed", .rows [], some SqlServer.unauthorizedFieldsError⟩, st,
        ⟨0, 0, 0⟩) := by
  have hr2 : "Admin" ∉ req.user_context.roles := by simpa using hr
  unfold SqlServer.execute_query SqlServer.validate_entitlements
  simp [hq, hr2]

/-- C5 witness: the concrete restricted-label request from an Analyst is
denied with no side effects. -/
theorem C5_restricted_label_denied_witness :
    SqlServer.execute_query SqlServer.zeroHash SqlServer.emptyExec "job-1" 0
        ⟨[], []⟩ SqlServer.reqConfidential =
      (⟨"failed", .rows [], some SqlServer.unauthorizedFieldsError⟩,
        ⟨[], []⟩, ⟨0, 0, 0⟩) :=
  C5_restricted_label_denied SqlServer.zeroHash SqlServer.emptyExec "job-1" 0
    ⟨[], []⟩ SqlServer.reqConfidential (by decide) (by decide)

/-- C6: the credential gate denies iff at least one of the two configured
SaaS integrations (Salesforce, Zendesk) has an absent or inactive token (AND
semantics over both), and when it denies a gate-passing-entitlements request,
`execute_query` surfaces the token error — which is distinct from the
entitlement error — with no side effects. -/
theorem C6_credential_gate (h : SqlServer.PyHash)
    (dbExec : String → Except String (List SqlServer.Row)) (freshId : String)
    (now : Nat) (st : SqlServer.ServerState) (req : SqlServer.SQLQueryRequest)
    (hent : SqlServer.validate_entitlements req.sql_query req.user_context
        req.enterprise_context = true)
    (htok : SqlServer.validate_saas_tokens req.enterprise_context = false) :
    (∀ ec : SqlServer.EnterpriseContext,
        SqlServer.validate_saas_tokens ec = false ↔
          (SqlServer.tokenTruthy
              (SqlServer.dictGet ec.access_tokens "Salesforce") = false ∨
            SqlServer.tokenTruthy
              (SqlServer.dictGet ec.access_tokens "Zendesk") = false)) ∧
    SqlServer.execute_query h dbExec freshId now st req =
      (⟨"failed", .rows [], some SqlServer.invalidTokensError⟩, st,
        ⟨0, 0, 0⟩) ∧
    SqlServer.invalidTokensError ≠ SqlServer.unauthorizedFieldsError := by
  refine ⟨?_, ?_, by decide⟩
  · intro ec
    unfold SqlServer.validate_saas_tokens
    cases hs : SqlServer.tokenTruthy
        (SqlServer.dictGet ec.access_tokens "Salesforce") <;>
      cases hz : SqlServer.tokenTruthy
          (SqlServer.dictGet ec.access_tokens "Zendesk") <;> simp [hs, hz]
  · unfold SqlServer.execute_query
    simp [hent, htok]

/-- C6 witness: a request missing the Zendesk token is denied with the token
error and no side effects, and that error differs from the entitlement one. -/
theorem C6_credential_gate_witness :
    (∀ ec : SqlServer.EnterpriseContext,
        SqlServer.validate_saas_tokens ec = false ↔
          (SqlServer.tokenTruthy
              (SqlServer.dictGet ec.access_tokens "Salesforce") = false ∨
            SqlServer.tokenTruthy
              (SqlServer.dictGet ec.access_tokens "Zendesk") = false)) ∧
    SqlServer.execute_query SqlServer.zeroHash SqlServer.emptyExec "job-1" 0
        ⟨[], []⟩ SqlServer.reqNoZendesk =
      (⟨"failed", .rows [], some SqlServer.invalidTokensError⟩, ⟨[], []⟩,
        ⟨0, 0, 0⟩) ∧
    SqlServer.invalidTokensError ≠ SqlServer.unauthorizedFieldsError :=
  C6_credential_gate SqlServer.zeroHash SqlServer.emptyExec "job-1" 0
    ⟨[], []⟩ SqlServer.reqNoZendesk (by decide) (by decide)

/-- C2 counterexample: on the concrete gate-passing request whose query
contains `JOIN` and whose preferences set `real_time` to true, the code does
NOT schedule the query: it returns status `"failed"` with the real-time
ineligibility error, enqueues nothing, and leaves the state unchanged —
contradicting the claimed `"success"`/job-identifier/`"queued"` response. -/
theorem C2_counterexample :
    SqlServer.containsLC SqlServer.reqJoin.sql_query "join" = true ∧
    SqlServer.reqJoin.real_time = some true ∧
    SqlServer.validate_entitlements SqlServer.reqJoin.sql_query
      SqlServer.reqJoin.user_context SqlServer.reqJoin.enterprise_context
      = true ∧
    SqlServer.validate_saas_tokens SqlServer.reqJoin.enterprise_context
      = true ∧
    SqlServer.execute_query SqlServer.zeroHash SqlServer.aliceExec "job-1" 0
        ⟨[], []⟩ SqlServer.reqJoin =
      (⟨"failed", .rows [], some SqlServer.realtimeIneligibleError⟩,
        ⟨[], []⟩, ⟨0, 0, 0⟩) := by
  decide

/-- C2 (amended): a gate-passing request whose query contains `JOIN` with
preferences `\x7b"real_time": True\x7d` is REJECTED, not scheduled:
`execute_query` returns status `"failed"` with the real-time ineligibility
error, no job is enqueued, and the state is unchanged; the queued-job
response arises only on the `real_time = False` path. -/
theorem C2_join_realtime_rejected (h : SqlServer.PyHash)
    (dbExec : String → Except String (List SqlServer.Row)) (freshId : String)
    (now : Nat) (st : SqlServer.ServerState) (req : SqlServer.SQLQueryRequest)
    (hj : SqlServer.containsLC req.sql_query "join" = true)
    (hrt : req.real_time = some true)
    (hent : SqlServer.validate_entitlements req.sql_query req.user_context
        req.enterprise_context = true)
    (htok : SqlServer.validate_saas_tokens req.enterprise_context = true) :
    SqlServer.execute_query h dbExec freshId now st req =
      (⟨"failed", .rows [], some SqlServer.realtimeIneligibleError⟩, st,
        ⟨0, 0, 0⟩) := by
  have he := SqlServer.ineligible_of_join req.sql_query hj
  unfold SqlServer.execute_query
  simp [hent, htok, hrt, he]

/-- C2 witness: the concrete `JOIN` request is rejected as realtime
ineligible. -/
theorem C2_join_realtime_rejected_witness :
    SqlServer.execute_query SqlServer.zeroHash SqlServer.aliceExec "job-2" 0
        ⟨[], []⟩ SqlServer.reqJoin =
      (⟨"failed", .rows [], some SqlServer.realtimeIneligibleError⟩,
        ⟨[], []⟩, ⟨0, 0, 0⟩) :=
  C2_join_realtime_rejected SqlServer.zeroHash SqlServer.aliceExec "job-2" 0
    ⟨[], []⟩ SqlServer.reqJoin (by decide) (by decide) (by decide) (by decide)

/-- C4 counterexample: with an executor whose result set is empty, the first
real-time call executes and caches the empty row list, yet the repeat call one
second later — well within the 5-minute TTL — invokes the executor AGAIN
(Python's `if cached_result:` treats the cached empty list as a miss),
contradicting the claimed zero additional executor invocations. -/
theorem C4_counterexample :
    (SqlServer.handle_real_time_query SqlServer.zeroHash SqlServer.emptyExec
        [] 0 SqlServer.qRepeat).2.2.execCalls = 1 ∧
    (SqlServer.handle_real_time_query SqlServer.zeroHash SqlServer.emptyExec
        (SqlServer.handle_real_time_query SqlServer.zeroHash
          SqlServer.emptyExec [] 0 SqlServer.qRepeat).2.1
        1 SqlServer.qRepeat).2.2.execCalls = 1 := by
  decide

/-- C4 (amended): a query repeated within the cache TTL is served from the
cache with the same rows and zero executor invocations, PROVIDED the first
call was a cache miss whose execution returned a non-empty result set; a
cached empty result set is treated as a miss by the router's truthiness test
and is re-executed. -/
theorem C4_repeat_hits_cache (h : SqlServer.PyHash)
    (dbExec : String → Except String (List SqlServer.Row))
    (st0 : SqlServer.CacheState) (t0 t1 : Nat) (q : String)
    (rows : List SqlServer.Row)
    (hmiss : SqlServer.listTruthy (SqlServer.cache_query_get h st0 t0 q)
      = false)
    (hexec : dbExec q = .ok rows) (hne : rows ≠ [])
    (ht : t1 < t0 + 300) :
    SqlServer.handle_real_time_query h dbExec st0 t0 q =
      (.ok rows, SqlServer.cache_query_put h st0 t0 q rows, ⟨2, 1, 0⟩) ∧
    SqlServer.handle_real_time_query h dbExec
        (SqlServer.cache_query_put h st0 t0 q rows) t1 q =
      (.ok rows, SqlServer.cache_query_put h st0 t0 q rows, ⟨1, 0, 0⟩) := by
  constructor
  · unfold SqlServer.handle_real_time_query
    simp [hmiss, hexec]
  · have ht2 : t1 < t0 + 60 * 5 := by omega
    have hget : SqlServer.cache_query_get h
        (SqlServer.cache_query_put h st0 t0 q rows) t1 q = some rows := by
      unfold SqlServer.cache_query_get SqlServer.cacheLookup
        SqlServer.cache_query_put
      simp [ht2]
    obtain ⟨r, rs, rfl⟩ := List.exists_cons_of_ne_nil hne
    unfold SqlServer.handle_real_time_query
    simp [hget, SqlServer.listTruthy]

/-- C4 witness: the concrete query, run against an executor returning one
row, is served from the cache on the repeat call ten seconds later with zero
executor invocations. -/
theorem C4_repeat_hits_cache_witness :
    SqlServer.handle_real_time_query SqlServer.zeroHash SqlServer.aliceExec
        [] 0 SqlServer.qRepeat =
      (.ok [[("name", "alice")]],
        SqlServer.cache_query_put SqlServer.zeroHash [] 0 SqlServer.qRepeat
          [[("name", "alice")]], ⟨2, 1, 0⟩) ∧
    SqlServer.handle_real_time_query SqlServer.zeroHash SqlServer.aliceExec
        (SqlServer.cache_query_put SqlServer.zeroHash [] 0 SqlServer.qRepeat
          [[("name", "alice")]]) 10 SqlServer.qRepeat =
      (.ok [[("name", "alice")]],
        SqlServer.cache_query_put SqlServer.zeroHash [] 0 SqlServer.qRepeat
          [[("name", "alice")]], ⟨1, 0, 0⟩) :=
  C4_repeat_hits_cache SqlServer.zeroHash SqlServer.aliceExec [] 0 10
    SqlServer.qRepeat [[("name", "alice")]] (by decide) rfl
    (by decide) (by decide)

/-- C8: a gate-passing request with `real_time` explicitly `False` takes the
scheduled path: `execute_query` returns `"success"` carrying the fresh job
identifier and status `"queued"`, appends a `"queued"` ledger entry under
that identifier (findable by a status lookup), leaves the cache untouched,
and never invokes the executor — it returns while the job is still queued. -/
theorem C8_scheduled_enqueue (h : SqlServer.PyHash)
    (dbExec : String → Except String (List SqlServer.Row)) (freshId : String)
    (now : Nat) (st : SqlServer.ServerState) (req : SqlServer.SQLQueryRequest)
    (hrt : req.real_time = some false)
    (hent : SqlServer.validate_entitlements req.sql_query req.user_context
        req.enterprise_context = true)
    (htok : SqlServer.validate_saas_tokens req.enterprise_context = true)
    (hfresh : ∀ t ∈ st.task_queue, t.job_id ≠ freshId) :
    SqlServer.execute_query h dbExec freshId now st req =
      (⟨"success", .job freshId "queued", none⟩,
        ⟨st.cache,
          st.task_queue ++
            [⟨freshId, req.sql_query, req.user_context,
              req.enterprise_context, "queued"⟩]⟩,
        ⟨0, 0, 1⟩) ∧
    SqlServer.get_task_status
        (st.task_queue ++
          [⟨freshId, req.sql_query, req.user_context, req.enterprise_context,
            "queued"⟩]) freshId =
      .found ⟨freshId, req.sql_query, req.user_context,
        req.enterprise_context, "queued"⟩ := by
  constructor
  · unfold SqlServer.execute_query SqlServer.handle_scheduled_query
      SqlServer.enqueue_query_task
    simp [hent, htok, hrt]
  · have h1 : st.task_queue.find?
        (fun t => t.job_id == freshId) = none := by
      rw [List.find?_eq_none]
      intro t htq
      simpa using hfresh t htq
    unfold SqlServer.get_task_status
    simp [h1]

/-- C8 witness: the concrete `real_time = False` request is enqueued under
`"job-42"` with status `"queued"` and found by the subsequent lookup. -/
theorem C8_scheduled_enqueue_witness :
    SqlServer.execute_query SqlServer.zeroHash SqlServer.aliceExec "job-42" 0
        ⟨[], []⟩ SqlServer.reqScheduled =
      (⟨"success", .job "job-42" "queued", none⟩,
        ⟨[],
          [] ++
            [⟨"job-42", SqlServer.reqScheduled.sql_query,
              SqlServer.reqScheduled.user_context,
              SqlServer.reqScheduled.enterprise_context, "queued"⟩]⟩,
        ⟨0, 0, 1⟩) ∧
    SqlServer.get_task_status
        ([] ++
          [⟨"job-42", SqlServer.reqScheduled.sql_query,
            SqlServer.reqScheduled.user_context,
            SqlServer.reqScheduled.enterprise_context, "queued"⟩]) "job-42" =
      .found ⟨"job-42", SqlServer.reqScheduled.sql_query,
        SqlServer.reqScheduled.user_context,
        SqlServer.reqScheduled.enterprise_context, "queued"⟩ :=
  C8_scheduled_enqueue SqlServer.zeroHash SqlServer.aliceExec "job-42" 0
    ⟨[], []⟩ SqlServer.reqScheduled (by decide) (by decide) (by decide)
    (by simp)

/-- C9: for an identifier no ledger entry carries, `get_task_status` returns
the not-found sentinel — never a default record; and after
`enqueue_query_task` returns that identifier, a lookup on it returns exactly
the queued record of that job. -/
theorem C9_ledger_lookup (queue : List SqlServer.Task) (id : String)
    (hfresh : ∀ t ∈ queue, t.job_id ≠ id) :
    SqlServer.get_task_status queue id = .notFound ∧
    ∀ (sq : String) (uc : SqlServer.UserContext)
      (ec : SqlServer.EnterpriseContext),
      SqlServer.get_task_status
          (SqlServer.enqueue_query_task id sq uc ec queue).2
          (SqlServer.enqueue_query_task id sq uc ec queue).1 =
        .found ⟨id, sq, uc, ec, "queued"⟩ := by
  have h1 : queue.find? (fun t => t.job_id == id) = none := by
    rw [List.find?_eq_none]
    intro t htq
    simpa using hfresh t htq
  constructor
  · unfold SqlServer.get_task_status
    simp [h1]
  · intro sq uc ec
    unfold SqlServer.get_task_status SqlServer.enqueue_query_task
    simp [h1]

/-- C9 witness: against a one-entry ledger, the unknown identifier
`"missing"` is reported not found, and an enqueue returning `"missing"`
makes its queued record retrievable. -/
theorem C9_ledger_lookup_witness :
    SqlServer.get_task_status [SqlServer.sampleTask] "missing" = .notFound ∧
    ∀ (sq : String) (uc : SqlServer.UserContext)
      (ec : SqlServer.EnterpriseContext),
      SqlServer.get_task_status
          (SqlServer.enqueue_query_task "missing" sq uc ec
            [SqlServer.sampleTask]).2
          (SqlServer.enqueue_query_task "missing" sq uc ec
            [SqlServer.sampleTask]).1 =
        .found ⟨"missing", sq, uc, ec, "queued"⟩ :=
  C9_ledger_lookup [SqlServer.sampleTask] "missing" (by decide)
